import Mathlib

/-!
Verification development for the "inventario" repository: a shallow
embedding of the Angular frontend components (product list with search and
pagination, Excel upload flow), the two ProductoService implementations,
and the PostgreSQL schema (table productos with CHECK constraints and the
fecha_actualizacion trigger).

JavaScript strings are modelled by Lean String; JS numbers that only ever
hold integers by Int or Nat; the DECIMAL price column and the float-valued
progress accumulator by Rat (every arithmetic step the embedded code
performs on them is exactly representable, so the rational dynamics agree
with the IEEE-double dynamics: see the comments at simTick).
-/

namespace Inventario

/-! ## JavaScript string primitives -/

/-- Checks that the list t is an initial segment of s (used to embed the
substring test of JavaScript String.includes). -/
def leadsWith : List Char → List Char → Bool
  | [], _ => true
  | _ :: _, [] => false
  | a :: t, b :: s => a = b && leadsWith t s

/-- Checks that the list t occurs contiguously inside s. -/
def occursIn (t : List Char) : List Char → Bool
  | [] => t.isEmpty
  | b :: s => leadsWith t (b :: s) || occursIn t s

/-- Embedding of JavaScript s.includes(t). -/
def strIncludes (s t : String) : Bool :=
  occursIn t.toList s.toList

/-- Splitting a character list at every occurrence of sep; the result is
never empty (JavaScript String.prototype.split with a one-character
separator). -/
def splitOnChar (sep : Char) : List Char → List (List Char)
  | [] => [[]]
  | c :: rest =>
      let r := splitOnChar sep rest
      if c = sep then [] :: r
      else
        match r with
        | [] => [[c]]
        | h :: t => (c :: h) :: t

/-- Embedding of JavaScript name.split(.).pop(): the final dot-separated
segment of a file name (split never returns an empty array). -/
def lastDotSegment (name : String) : String :=
  String.mk ((splitOnChar (Char.ofNat 46) name.toList).getLastD [])

/-- ASCII lowercasing of one character (the only case the embedded data
exercises in JavaScript toLowerCase). -/
def toLowerChar (c : Char) : Char :=
  if 65 ≤ c.toNat ∧ c.toNat ≤ 90 then Char.ofNat (c.toNat + 32) else c

/-- Embedding of JavaScript s.toLowerCase(). -/
def jsToLower (s : String) : String :=
  String.mk (s.toList.map toLowerChar)

/-- Embedding of JavaScript s.trim(): drop leading and trailing
whitespace (space, tab, CR, LF). -/
def jsTrim (s : String) : String :=
  String.mk (((s.toList.dropWhile Char.isWhitespace).reverse.dropWhile
    Char.isWhitespace).reverse)

/-- Embedding of PostgreSQL TRIM(x) with its default behaviour: strip only
space characters from both ends (tab, CR and LF are kept). -/
def sqlTrim (s : String) : String :=
  String.mk (((s.toList.dropWhile (fun c => c = ' ')).reverse.dropWhile
    (fun c => c = ' ')).reverse)

/-- Truthiness of an optional JS string: undefined and the empty string are
falsy, every other string is truthy. -/
def optTruthy : Option String → Bool
  | some s => s ≠ ""
  | none => false

/-! ## Data model: interface Producto (producto.service.ts) -/

/-- interface Producto of src/app/services/producto.service.ts.
descripcion and categoria are optional fields; cantidad and precio are JS
numbers (cantidad an integer count, precio a decimal price). -/
structure Producto where
  id : Option Nat
  codigo : String
  nombre : String
  descripcion : Option String
  cantidad : Int
  precio : Rat
  categoria : Option String
deriving Repr, DecidableEq

/-! ## ProductoListComponent (producto-list.component.ts) -/

/-- The fields of ProductoListComponent that the pagination and search
methods read and write. productosPorPagina is the constant 5. -/
structure ListState where
  productos : List Producto
  terminoBusqueda : String
  productosFiltrados : List Producto
  paginaActual : Int
  totalPaginas : Int
deriving Repr, DecidableEq

/-- productosPorPagina = 5. -/
def productosPorPagina : Int := 5

/-- Initial field values of ProductoListComponent: paginaActual = 1,
totalPaginas = 0, empty lists, empty search term. -/
def initListState : ListState :=
  { productos := []
    terminoBusqueda := ""
    productosFiltrados := []
    paginaActual := 1
    totalPaginas := 0 }

/-- Embedding of JavaScript Math.ceil(n / 5) for a natural n, as an Int. -/
def ceilDiv5 (n : Nat) : Int :=
  Int.ofNat ((n + 4) / 5)

/-- calcularTotalPaginas: totalPaginas := Math.ceil(filtrados.length / 5);
then clamp paginaActual down to totalPaginas when it exceeds it and
totalPaginas is positive. -/
def calcularTotalPaginas (s : ListState) : ListState :=
  let tp := ceilDiv5 s.productosFiltrados.length
  let pa := if s.paginaActual > tp ∧ tp > 0 then tp else s.paginaActual
  { s with totalPaginas := tp, paginaActual := pa }

/-- Embedding of JavaScript Array.prototype.slice(start, stop): negative
indices count from the end, indices are clamped to [0, length]. -/
def jsSlice {α : Type} (l : List α) (start stop : Int) : List α :=
  let n : Int := l.length
  let a := if start < 0 then max (n + start) 0 else min start n
  let b := if stop < 0 then max (n + stop) 0 else min stop n
  (l.drop a.toNat).take (b - a).toNat

/-- obtenerProductosPaginados: slice of productosFiltrados from
(paginaActual - 1) * 5 to that plus 5. -/
def obtenerProductosPaginados (s : ListState) : List Producto :=
  let inicio := (s.paginaActual - 1) * productosPorPagina
  let fin := inicio + productosPorPagina
  jsSlice s.productosFiltrados inicio fin

/-- cambiarPagina: adopt the new page only when it lies in
[1, totalPaginas]. -/
def cambiarPagina (nueva : Int) (s : ListState) : ListState :=
  if nueva ≥ 1 ∧ nueva ≤ s.totalPaginas then { s with paginaActual := nueva }
  else s

/-- The filter predicate of aplicarFiltros, with termino the lowercased
trimmed search term: codigo or nombre contains it, or descripcion /
categoria is truthy and contains it. -/
def coincide (termino : String) (p : Producto) : Bool :=
  strIncludes (jsToLower p.codigo) termino ||
  strIncludes (jsToLower p.nombre) termino ||
  (optTruthy p.descripcion && strIncludes (jsToLower (p.descripcion.getD "")) termino) ||
  (optTruthy p.categoria && strIncludes (jsToLower (p.categoria.getD "")) termino)

/-- aplicarFiltros: empty or whitespace-only term copies productos,
otherwise filters by coincide; then paginaActual := 1 and
calcularTotalPaginas. -/
def aplicarFiltros (s : ListState) : ListState :=
  let filtrados :=
    if s.terminoBusqueda = "" ∨ jsTrim s.terminoBusqueda = "" then
      s.productos
    else
      let termino := jsTrim (jsToLower s.terminoBusqueda)
      s.productos.filter (coincide termino)
  calcularTotalPaginas { s with productosFiltrados := filtrados, paginaActual := 1 }

/-- buscar() just delegates to aplicarFiltros. -/
def buscar (s : ListState) : ListState :=
  aplicarFiltros s

/-- limpiarBusqueda: clear the term, then aplicarFiltros. -/
def limpiarBusqueda (s : ListState) : ListState :=
  aplicarFiltros { s with terminoBusqueda := "" }

/-- The component operations named by the pagination/search invariant. -/
inductive OpL where
  | aplicarFiltros
  | buscar
  | limpiarBusqueda
  | cambiarPagina (n : Int)
  | calcularTotalPaginas
deriving Repr, DecidableEq

/-- One step of ProductoListComponent under an operation. -/
def stepL (op : OpL) (s : ListState) : ListState :=
  match op with
  | .aplicarFiltros => aplicarFiltros s
  | .buscar => buscar s
  | .limpiarBusqueda => limpiarBusqueda s
  | .cambiarPagina n => cambiarPagina n s
  | .calcularTotalPaginas => calcularTotalPaginas s

/-- Run a sequence of operations from a state. -/
def runOps (ops : List OpL) (s : ListState) : ListState :=
  ops.foldl (fun st op => stepL op st) s

/-! ## CargaExcelComponent (carga-excel.component.ts) -/

/-- A browser File: its name and its size in bytes. -/
structure File where
  name : String
  size : Nat
deriving Repr, DecidableEq

/-- interface ValidacionExcel of producto.service.ts (part with mensaje and
optional advertencias, as consumed by CargaExcelComponent). -/
structure ValidacionExcel where
  valido : Bool
  mensaje : String
  errores : List String
  total_filas : Nat
  datos_previos : List Producto
  advertencias : Option (List String)
deriving Repr, DecidableEq

/-- interface ResultadoCarga of producto.service.ts. -/
structure ResultadoCarga where
  success : Bool
  mensaje : String
  productos_creados : Nat
  productos_actualizados : Nat
  errores : List String
  total_procesados : Nat
deriving Repr, DecidableEq

/-- The fields of CargaExcelComponent that onFileSelected and cargarArchivo
read and write. progreso is a JS number, embedded as Rat. -/
structure ExcelState where
  archivoSeleccionado : Option File
  nombreArchivo : String
  validacion : Option ValidacionExcel
  resultado : Option ResultadoCarga
  validando : Bool
  cargando : Bool
  mostrarVistaPrevia : Bool
  mensajeError : String
  mensajeExito : String
  mensajeAdvertencia : String
  progreso : Rat
  progresoMensaje : String
deriving Repr, DecidableEq

/-- Initial field values of CargaExcelComponent. -/
def initExcelState : ExcelState :=
  { archivoSeleccionado := none
    nombreArchivo := ""
    validacion := none
    resultado := none
    validando := false
    cargando := false
    mostrarVistaPrevia := false
    mensajeError := ""
    mensajeExito := ""
    mensajeAdvertencia := ""
    progreso := 0
    progresoMensaje := "" }

/-- limpiarMensajes: clear the three message fields. -/
def limpiarMensajes (s : ExcelState) : ExcelState :=
  { s with mensajeError := "", mensajeExito := "", mensajeAdvertencia := "" }

/-- this.validacion?.valido as a Bool: false when validacion is null. -/
def validacionValida (s : ExcelState) : Bool :=
  match s.validacion with
  | some v => v.valido
  | none => false

/-- MAX_SIZE = 10 * 1024 * 1024 bytes. -/
def maxSizeBytes : Nat := 10 * 1024 * 1024

/-- onFileSelected of CargaExcelComponent (the main one, with OnDestroy),
including the synchronous head of the validarArchivo() call it ends with
(validando := true, limpiarMensajes, validacion := null). The second
component of the result records whether the validation HTTP request was
issued. The argument is event.target?.files?.[0], possibly absent. -/
def onFileSelected (file? : Option File) (s : ExcelState) : ExcelState × Bool :=
  let s := limpiarMensajes s
  match file? with
  | none =>
      ({ s with mensajeAdvertencia := "No se selecciono ningun archivo" }, false)
  | some f =>
      if f.size > maxSizeBytes then
        ({ s with mensajeError := "El archivo excede el tamano maximo de 10 MB",
                  archivoSeleccionado := none, nombreArchivo := "" }, false)
      else
        let extension := jsToLower (lastDotSegment f.name)
        if ¬ (extension = "xlsx" ∨ extension = "xls") then
          ({ s with mensajeError := "Solo se permiten archivos Excel (.xlsx o .xls)",
                    archivoSeleccionado := none, nombreArchivo := "" }, false)
        else
          let s := { s with archivoSeleccionado := some f, nombreArchivo := f.name,
                            validacion := none, resultado := none,
                            mostrarVistaPrevia := false }
          let s := limpiarMensajes { s with validando := true }
          (⟨{ s with validacion := none }, true⟩ : ExcelState × Bool)

/-- cargarArchivo of CargaExcelComponent. confirmar is the answer of the
confirm() dialog. The second component records whether the upload HTTP
request (cargarExcel, via ejecutarCarga) was issued. -/
def cargarArchivo (confirmar : Bool) (s : ExcelState) : ExcelState × Bool :=
  if s.archivoSeleccionado.isNone then
    ({ s with mensajeAdvertencia := "Por favor selecciona un archivo" }, false)
  else if ¬ validacionValida s then
    ({ s with mensajeAdvertencia := "Primero valida el archivo" }, false)
  else if ¬ confirmar then
    (s, false)
  else
    let s := { s with cargando := true, progreso := 0 }
    let s := limpiarMensajes s
    ({ s with resultado := none }, true)

/-! ## The progress simulation (simularProgresoGradual) -/

/-- tiempoEstimado = Math.max(8000, Math.min(totalFilas * 200, 30000)). -/
def tiempoEstimado (totalFilas : Nat) : Nat :=
  max 8000 (min (totalFilas * 200) 30000)

/-- Number of 200 ms cycles: tiempoEstimado / 200 (tiempoEstimado is always
a multiple of 200, so JS real division gives this natural number). -/
def numCiclos (totalFilas : Nat) : Nat :=
  tiempoEstimado totalFilas / 200

/-- incrementoPorCiclo = 80 / (tiempoEstimado / 200). Exact as a rational;
in IEEE doubles the value is a faithful rounding of the same quotient, and
the simulation tick below only ever takes the floor of an integer plus this
increment, which lands in the same unit interval for the double and the
rational (the quotient is never an integer unless exactly 1 or 2, both
exactly representable), so the Rat dynamics equal the double dynamics. -/
def incrementoPorCiclo (totalFilas : Nat) : Rat :=
  80 / (numCiclos totalFilas : Rat)

/-- One tick of the setInterval body of simularProgresoGradual, acting on
progreso: below 80 add the increment and floor to an integer, otherwise
hold at 85. -/
def simTick (totalFilas : Nat) (p : Rat) : Rat :=
  if p < 80 then ((⌊p + incrementoPorCiclo totalFilas⌋ : Int) : Rat)
  else 85

/-- progreso after k simulation ticks from the initial 0 set by
simularProgresoGradual. -/
def simProgreso (totalFilas : Nat) (k : Nat) : Rat :=
  Nat.rec (0 : Rat) (fun _ p => simTick totalFilas p) k

/-! ## Client-side validation of guardarProducto (producto-list.component.ts) -/

/-- guardarProducto client validation: the list errores it produces and
whether the create/update HTTP request is issued (reached only with errores
still empty). JS truthiness: !codigo is codigo = "", !precio is precio = 0. -/
def guardarProducto (form : Producto) : List String × Bool :=
  if form.codigo = "" ∨ jsTrim form.codigo = "" then
    (["El codigo es obligatorio"], false)
  else if form.nombre = "" ∨ jsTrim form.nombre = "" then
    (["El nombre es obligatorio"], false)
  else if form.precio = 0 ∨ form.precio ≤ 0 then
    (["El precio debe ser mayor a 0"], false)
  else if form.cantidad < 0 then
    (["La cantidad no puede ser negativa"], false)
  else
    ([], true)

/-! ## Database schema (backend/init.sql): table productos, CHECK
constraints, trigger trigger_actualizar_fecha -/

/-- A row of the table productos. Timestamps are abstract instants (Nat). -/
structure Row where
  id : Nat
  codigo : String
  nombre : String
  descripcion : Option String
  cantidad : Int
  precio : Rat
  categoria : Option String
  fecha_creacion : Nat
  fecha_actualizacion : Nat
deriving Repr, DecidableEq

/-- The four CHECK constraints of the table: check_cantidad, check_precio,
check_codigo_no_vacio, check_nombre_no_vacio. LENGTH(TRIM(x)) > 0 means x
is non-empty after PostgreSQL TRIM, which strips only spaces. -/
def RowOk (r : Row) : Prop :=
  0 ≤ r.cantidad ∧ 0 ≤ r.precio ∧ sqlTrim r.codigo ≠ "" ∧ sqlTrim r.nombre ≠ ""

instance (r : Row) : Decidable (RowOk r) := by
  unfold RowOk
  infer_instance

/-- The table invariant: every row passes the CHECK constraints and the
UNIQUE constraint on codigo holds. -/
def TableOk (t : List Row) : Prop :=
  (∀ r ∈ t, RowOk r) ∧ (t.map Row.codigo).Nodup

instance (t : List Row) : Decidable (TableOk t) := by
  unfold TableOk
  infer_instance

/-- The SET list of an UPDATE statement: each field either kept (none) or
explicitly assigned. The primary key id is not updatable here. -/
structure Patch where
  codigo : Option String
  nombre : Option String
  descripcion : Option (Option String)
  cantidad : Option Int
  precio : Option Rat
  categoria : Option (Option String)
  fecha_creacion : Option Nat
  fecha_actualizacion : Option Nat
deriving Repr, DecidableEq

/-- The empty SET list: every field kept. -/
def Patch.keep : Patch :=
  { codigo := none, nombre := none, descripcion := none, cantidad := none,
    precio := none, categoria := none, fecha_creacion := none,
    fecha_actualizacion := none }

/-- Apply the SET list of an UPDATE to a row. -/
def applyPatch (r : Row) (p : Patch) : Row :=
  { id := r.id
    codigo := p.codigo.getD r.codigo
    nombre := p.nombre.getD r.nombre
    descripcion := p.descripcion.getD r.descripcion
    cantidad := p.cantidad.getD r.cantidad
    precio := p.precio.getD r.precio
    categoria := p.categoria.getD r.categoria
    fecha_creacion := p.fecha_creacion.getD r.fecha_creacion
    fecha_actualizacion := p.fecha_actualizacion.getD r.fecha_actualizacion }

/-- Trigger function actualizar_fecha_modificacion: BEFORE UPDATE, set
NEW.fecha_actualizacion to the current timestamp and return NEW. -/
def actualizar_fecha_modificacion (new : Row) (now : Nat) : Row :=
  { new with fecha_actualizacion := now }

/-- INSERT INTO productos: accepted only when the new row passes the CHECK
constraints and its codigo collides with no existing row (UNIQUE);
otherwise the statement is rejected and the table unchanged (none). -/
def insertProducto (t : List Row) (r : Row) : Option (List Row) :=
  if RowOk r ∧ ∀ x ∈ t, x.codigo ≠ r.codigo then some (t ++ [r]) else none

/-- The rows produced by UPDATE productos ... WHERE id = i: on each matched
row the SET list is applied and the BEFORE UPDATE trigger stamps
fecha_actualizacion with the current timestamp. -/
def updatedRows (t : List Row) (i : Nat) (p : Patch) (now : Nat) : List Row :=
  t.map (fun r =>
    if r.id = i then actualizar_fecha_modificacion (applyPatch r p) now else r)

/-- UPDATE productos ... WHERE id = i: the statement is accepted only when
the resulting table still passes every CHECK and the UNIQUE constraint,
and rejected (none) otherwise. -/
def updateProducto (t : List Row) (i : Nat) (p : Patch) (now : Nat) :
    Option (List Row) :=
  if TableOk (updatedRows t i p now) then some (updatedRows t i p now) else none

/-- The five seed rows inserted by init.sql (timestamps at instant 0). -/
def seedRows : List Row :=
  [ { id := 1, codigo := "PROD001", nombre := "Laptop Dell XPS 15",
      descripcion := some "Laptop de alto rendimiento", cantidad := 10,
      precio := (129999 : Rat) / 100, categoria := some "Electronica",
      fecha_creacion := 0, fecha_actualizacion := 0 },
    { id := 2, codigo := "PROD002", nombre := "Mouse Logitech MX Master",
      descripcion := some "Mouse ergonomico inalambrico", cantidad := 25,
      precio := (9999 : Rat) / 100, categoria := some "Accesorios",
      fecha_creacion := 0, fecha_actualizacion := 0 },
    { id := 3, codigo := "PROD003", nombre := "Teclado Mecanico Keychron K2",
      descripcion := some "Teclado mecanico retroiluminado", cantidad := 15,
      precio := (8999 : Rat) / 100, categoria := some "Accesorios",
      fecha_creacion := 0, fecha_actualizacion := 0 },
    { id := 4, codigo := "PROD004", nombre := "Monitor LG 27 4K",
      descripcion := some "Monitor 4K UHD 27 pulgadas", cantidad := 8,
      precio := (44999 : Rat) / 100, categoria := some "Electronica",
      fecha_creacion := 0, fecha_actualizacion := 0 },
    { id := 5, codigo := "PROD005", nombre := "Webcam Logitech C920",
      descripcion := some "Webcam Full HD 1080p", cantidad := 20,
      precio := (7999 : Rat) / 100, categoria := some "Accesorios",
      fecha_creacion := 0, fecha_actualizacion := 0 } ]

/-! ## The two ProductoService implementations: Excel endpoint requests -/

/-- What an Excel endpoint call sends: the path appended to apiUrl and the
multipart form field name under which the file is appended. -/
structure ExcelRequest where
  pathSuffix : String
  formField : String
deriving Repr, DecidableEq

/-- validarExcel of the first service (src/unnamed/part_001): appends the
file under form field archivo and posts to apiUrl
++ /productos/validar-excel. -/
def ServiceA.validarExcel (_archivo : File) : ExcelRequest :=
  { pathSuffix := "/productos/validar-excel", formField := "archivo" }

/-- cargarExcel of the first service (src/unnamed/part_001). -/
def ServiceA.cargarExcel (_archivo : File) : ExcelRequest :=
  { pathSuffix := "/productos/cargar-excel", formField := "archivo" }

/-- validarExcel of the second service (src/unnamed/part_002): appends the
file under form field file and posts to apiUrl ++ /productos/validar-excel. -/
def ServiceB.validarExcel (_archivo : File) : ExcelRequest :=
  { pathSuffix := "/productos/validar-excel", formField := "file" }

/-- cargarExcel of the second service (src/unnamed/part_002). -/
def ServiceB.cargarExcel (_archivo : File) : ExcelRequest :=
  { pathSuffix := "/productos/cargar-excel", formField := "file" }

/-! ## Sample data for witnesses and counterexamples -/

/-- A sample upload file. -/
def sampleFile : File :=
  { name := "productos.xlsx", size := 2048 }

/-- A sample file with a non-Excel extension. -/
def badFile : File :=
  { name := "productos.pdf", size := 2048 }

/-- A product with price exactly zero and every other field well-formed. -/
def productoPrecioCero : Producto :=
  { id := none, codigo := "PROD010", nombre := "Regalo promocional",
    descripcion := none, cantidad := 0, precio := 0, categoria := none }

/-- A product that passes all client-side checks. -/
def productoValido : Producto :=
  { id := none, codigo := "PROD011", nombre := "Mouse optico",
    descripcion := some "Mouse USB", cantidad := 3, precio := 25,
    categoria := some "Accesorios" }

/-- A sample database row. -/
def sampleRow : Row :=
  { id := 9, codigo := "X1", nombre := "Nuevo", descripcion := none,
    cantidad := 1, precio := 2, categoria := none,
    fecha_creacion := 0, fecha_actualizacion := 0 }

/-! ## Claim C10 -/

/-- Claim C10, as stated, is false: the two service implementations post to
the same endpoint path suffixes, but the first appends the file under form
field archivo while the second uses form field file, already at this
concrete file. -/
theorem claim_C10_counterexample :
    ¬ ((ServiceA.validarExcel sampleFile).pathSuffix
          = (ServiceB.validarExcel sampleFile).pathSuffix ∧
       (ServiceA.validarExcel sampleFile).formField
          = (ServiceB.validarExcel sampleFile).formField ∧
       (ServiceA.cargarExcel sampleFile).pathSuffix
          = (ServiceB.cargarExcel sampleFile).pathSuffix ∧
       (ServiceA.cargarExcel sampleFile).formField
          = (ServiceB.cargarExcel sampleFile).formField) := by
  decide

/-- Claim C10 amended: for every file the two implementations use the same
endpoint path suffixes for validarExcel and cargarExcel, but they differ in
the multipart form field name: the first uses archivo, the second file. -/
theorem claim_C10_amended :
    ∀ f : File,
      (ServiceA.validarExcel f).pathSuffix = (ServiceB.validarExcel f).pathSuffix ∧
      (ServiceA.cargarExcel f).pathSuffix = (ServiceB.cargarExcel f).pathSuffix ∧
      (ServiceA.validarExcel f).formField = "archivo" ∧
      (ServiceB.validarExcel f).formField = "file" ∧
      (ServiceA.cargarExcel f).formField = "archivo" ∧
      (ServiceB.cargarExcel f).formField = "file" := by
  intro f
  exact ⟨rfl, rfl, rfl, rfl, rfl, rfl⟩

/-! ## Claim C6 -/

/-- Claim C6, as stated, is false: this product has non-negative price and
quantity and non-blank code and name, yet the client validation of
guardarProducto pushes an error and issues no request, because the code
requires precio strictly greater than 0 while the claim only asks for
non-negative. -/
theorem claim_C6_counterexample :
    0 ≤ productoPrecioCero.precio ∧ 0 ≤ productoPrecioCero.cantidad ∧
    jsTrim productoPrecioCero.codigo ≠ "" ∧
    jsTrim productoPrecioCero.nombre ≠ "" ∧
    ¬ ((guardarProducto productoPrecioCero).1 = []
        ∧ (guardarProducto productoPrecioCero).2 = true) := by
  decide

/-- Claim C6 amended: every product whose precio is strictly positive,
whose cantidad is non-negative, and whose codigo and nombre are non-empty
after trimming passes the client-side validation in guardarProducto
(errores stays empty) and the create or update HTTP request is issued. -/
theorem claim_C6_amended (p : Producto) (hprecio : 0 < p.precio)
    (hcant : 0 ≤ p.cantidad) (hcod : jsTrim p.codigo ≠ "")
    (hnom : jsTrim p.nombre ≠ "") :
    guardarProducto p = ([], true) := by
  have htrim0 : jsTrim "" = "" := by decide
  unfold guardarProducto
  rw [if_neg, if_neg, if_neg, if_neg]
  · omega
  · rintro (h | h)
    · exact hprecio.ne (by rw [h])
    · exact absurd hprecio (not_lt.mpr h)
  · rintro (h | h)
    · exact hnom (by rw [h, htrim0])
    · exact hnom h
  · rintro (h | h)
    · exact hcod (by rw [h, htrim0])
    · exact hcod h

/-- Witness for claim C6 amended at a concrete product. -/
theorem claim_C6_witness :
    guardarProducto productoValido = ([], true) :=
  claim_C6_amended productoValido (by decide) (by decide) (by decide) (by decide)

/-! ## Claim C7 -/

/-- Claim C7: on every UPDATE of a row, the trigger stamps
fecha_actualizacion with the current timestamp and touches no other column;
fecha_creacion and every field the SET list does not assign keep their
previous values. -/
theorem claim_C7 (r : Row) (p : Patch) (now : Nat) :
    (actualizar_fecha_modificacion (applyPatch r p) now).fecha_actualizacion = now ∧
    (∀ x : Row,
      (actualizar_fecha_modificacion x now).id = x.id ∧
      (actualizar_fecha_modificacion x now).codigo = x.codigo ∧
      (actualizar_fecha_modificacion x now).nombre = x.nombre ∧
      (actualizar_fecha_modificacion x now).descripcion = x.descripcion ∧
      (actualizar_fecha_modificacion x now).cantidad = x.cantidad ∧
      (actualizar_fecha_modificacion x now).precio = x.precio ∧
      (actualizar_fecha_modificacion x now).categoria = x.categoria ∧
      (actualizar_fecha_modificacion x now).fecha_creacion = x.fecha_creacion) ∧
    (p.fecha_creacion = none →
      (actualizar_fecha_modificacion (applyPatch r p) now).fecha_creacion
        = r.fecha_creacion) ∧
    (p.codigo = none →
      (actualizar_fecha_modificacion (applyPatch r p) now).codigo = r.codigo) ∧
    (p.nombre = none →
      (actualizar_fecha_modificacion (applyPatch r p) now).nombre = r.nombre) ∧
    (p.descripcion = none →
      (actualizar_fecha_modificacion (applyPatch r p) now).descripcion
        = r.descripcion) ∧
    (p.cantidad = none →
      (actualizar_fecha_modificacion (applyPatch r p) now).cantidad = r.cantidad) ∧
    (p.precio = none →
      (actualizar_fecha_modificacion (applyPatch r p) now).precio = r.precio) ∧
    (p.categoria = none →
      (actualizar_fecha_modificacion (applyPatch r p) now).categoria
        = r.categoria) := by
  refine ⟨rfl, fun x => ⟨rfl, rfl, rfl, rfl, rfl, rfl, rfl, rfl⟩,
    ?_, ?_, ?_, ?_, ?_, ?_, ?_⟩ <;>
    intro h <;> simp [actualizar_fecha_modificacion, applyPatch, h]

/-- Witness for claim C7 at a concrete row, the empty SET list, and
timestamp 7. -/
theorem claim_C7_witness :
    (actualizar_fecha_modificacion (applyPatch sampleRow Patch.keep) 7).fecha_actualizacion = 7 ∧
    (actualizar_fecha_modificacion (applyPatch sampleRow Patch.keep) 7).fecha_creacion
      = sampleRow.fecha_creacion ∧
    (actualizar_fecha_modificacion (applyPatch sampleRow Patch.keep) 7).codigo
      = sampleRow.codigo :=
  ⟨(claim_C7 sampleRow Patch.keep 7).1,
   (claim_C7 sampleRow Patch.keep 7).2.2.1 rfl,
   (claim_C7 sampleRow Patch.keep 7).2.2.2.1 rfl⟩

/-! ## Claim C1 -/

/-- Claim C1: cargarArchivo issues the upload request only when a file is
selected and the stored validation result has valido = true; when either
guard fails it returns having changed nothing but the advisory message
mensajeAdvertencia (in particular cargando, progreso and resultado are
unchanged) and no request is issued. -/
theorem claim_C1 (s : ExcelState) (c : Bool) :
    ((cargarArchivo c s).2 = true →
      s.archivoSeleccionado.isSome = true ∧ validacionValida s = true) ∧
    (s.archivoSeleccionado = none ∨ validacionValida s = false →
      (cargarArchivo c s).1.cargando = s.cargando ∧
      (cargarArchivo c s).1.progreso = s.progreso ∧
      (cargarArchivo c s).1.resultado = s.resultado ∧
      (cargarArchivo c s).1.archivoSeleccionado = s.archivoSeleccionado ∧
      (cargarArchivo c s).1.nombreArchivo = s.nombreArchivo ∧
      (cargarArchivo c s).1.validacion = s.validacion ∧
      (cargarArchivo c s).1.validando = s.validando ∧
      (cargarArchivo c s).1.mostrarVistaPrevia = s.mostrarVistaPrevia ∧
      (cargarArchivo c s).1.mensajeError = s.mensajeError ∧
      (cargarArchivo c s).1.mensajeExito = s.mensajeExito ∧
      (cargarArchivo c s).1.progresoMensaje = s.progresoMensaje ∧
      (cargarArchivo c s).2 = false) := by
  by_cases h1 : s.archivoSeleccionado.isNone
  · constructor
    · intro h
      exfalso
      simp [cargarArchivo, h1] at h
    · intro _
      simp [cargarArchivo, h1]
  · by_cases h2 : validacionValida s
    · constructor
      · intro _
        refine ⟨?_, h2⟩
        cases ha : s.archivoSeleccionado with
        | none => exact absurd (by simp [ha]) h1
        | some f => rfl
      · rintro (h | h)
        · exact absurd (by simp [h]) h1
        · exact absurd h2 (by simp [h])
    · constructor
      · intro h
        exfalso
        simp [cargarArchivo, h1, h2] at h
      · intro _
        simp [cargarArchivo, h1, h2]

/-- Witness for claim C1: in the initial state no file is selected, so
cargarArchivo leaves the upload state unchanged and issues no request even
when the user would confirm. -/
theorem claim_C1_witness :
    (cargarArchivo true initExcelState).1.cargando = initExcelState.cargando ∧
    (cargarArchivo true initExcelState).1.progreso = initExcelState.progreso ∧
    (cargarArchivo true initExcelState).1.resultado = initExcelState.resultado ∧
    (cargarArchivo true initExcelState).2 = false :=
  ⟨((claim_C1 initExcelState true).2 (Or.inl rfl)).1,
   ((claim_C1 initExcelState true).2 (Or.inl rfl)).2.1,
   ((claim_C1 initExcelState true).2 (Or.inl rfl)).2.2.1,
   ((claim_C1 initExcelState true).2 (Or.inl rfl)).2.2.2.2.2.2.2.2.2.2.2⟩

/-! ## Claim C3 -/

/-- Claim C3: for every selected file, onFileSelected accepts the file
(stores it, records its name, resets validacion, resultado and the preview
flag) exactly when its size is at most 10 MiB and the lowercased final
dot-separated segment of its name is xlsx or xls; on rejection an error
message is set and no file remains selected. -/
theorem claim_C3 (f : File) (s : ExcelState) :
    (((onFileSelected (some f) s).1.archivoSeleccionado = some f ∧
      (onFileSelected (some f) s).1.nombreArchivo = f.name ∧
      (onFileSelected (some f) s).1.validacion = none ∧
      (onFileSelected (some f) s).1.resultado = none ∧
      (onFileSelected (some f) s).1.mostrarVistaPrevia = false) ↔
      (f.size ≤ maxSizeBytes ∧
        (jsToLower (lastDotSegment f.name) = "xlsx" ∨
         jsToLower (lastDotSegment f.name) = "xls"))) ∧
    (¬ (f.size ≤ maxSizeBytes ∧
        (jsToLower (lastDotSegment f.name) = "xlsx" ∨
         jsToLower (lastDotSegment f.name) = "xls")) →
      (onFileSelected (some f) s).1.mensajeError ≠ "" ∧
      (onFileSelected (some f) s).1.archivoSeleccionado = none) := by
  by_cases hs : f.size > maxSizeBytes
  · have hns : ¬ (f.size ≤ maxSizeBytes ∧
        (jsToLower (lastDotSegment f.name) = "xlsx" ∨
         jsToLower (lastDotSegment f.name) = "xls")) :=
      fun h => absurd h.1 (not_le.mpr hs)
    constructor
    · constructor
      · intro h
        exfalso
        have := h.1
        simp [onFileSelected, hs] at this
      · intro h
        exact absurd h hns
    · intro _
      refine ⟨?_, ?_⟩ <;> simp [onFileSelected, hs]
  · by_cases he : jsToLower (lastDotSegment f.name) = "xlsx" ∨
        jsToLower (lastDotSegment f.name) = "xls"
    · constructor
      · constructor
        · intro _
          exact ⟨not_lt.mp hs, he⟩
        · intro _
          refine ⟨?_, ?_, ?_, ?_, ?_⟩ <;> simp [onFileSelected, limpiarMensajes, hs, he]
      · intro h
        exact absurd ⟨not_lt.mp hs, he⟩ h
    · constructor
      · constructor
        · intro h
          exfalso
          have := h.1
          simp [onFileSelected, hs, he] at this
        · intro h
          exact absurd h (fun hc => he hc.2)
      · intro _
        refine ⟨?_, ?_⟩ <;> simp [onFileSelected, hs, he]

/-- Witness for claim C3: a pdf file is rejected, an error message is set
and no file remains selected. -/
theorem claim_C3_witness :
    (onFileSelected (some badFile) initExcelState).1.mensajeError ≠ "" ∧
    (onFileSelected (some badFile) initExcelState).1.archivoSeleccionado = none :=
  (claim_C3 badFile initExcelState).2 (by decide)

/-! ## Claim C2 -/

/-- A row whose codigo is a single tab character: it passes the real CHECK
constraint LENGTH(TRIM(codigo)) > 0, because PostgreSQL TRIM strips only
spaces, yet it is empty after trimming whitespace. -/
def filaTab : Row :=
  { id := 7, codigo := "\t", nombre := "Tabulador", descripcion := none,
    cantidad := 1, precio := 1, categoria := none,
    fecha_creacion := 0, fecha_actualizacion := 0 }

/-- Claim C2, as stated, is false: the database accepts the INSERT of a
row whose codigo is a tab character, because the CHECK trims only spaces;
the inserted row violates the claimed invariant that codigo is non-empty
after trimming whitespace, so this violating operation is not rejected. -/
theorem claim_C2_counterexample :
    insertProducto [] filaTab = some [filaTab] ∧ jsTrim filaTab.codigo = "" := by
  decide

/-- Claim C2 amended: every row of productos satisfies cantidad >= 0,
precio >= 0, codigo and nombre non-empty after trimming spaces (the SQL
TRIM of the CHECK constraints, which strips only spaces, not all
whitespace), and codigo unique across rows: the seed data satisfies this
invariant, every accepted INSERT and every accepted UPDATE preserves it,
and violating statements are rejected. -/
theorem claim_C2_amended :
    TableOk seedRows ∧
    (∀ (t : List Row) (r : Row) (t2 : List Row),
      TableOk t → insertProducto t r = some t2 → TableOk t2) ∧
    (∀ (t : List Row) (r : Row),
      ¬ (RowOk r ∧ ∀ x ∈ t, x.codigo ≠ r.codigo) → insertProducto t r = none) ∧
    (∀ (t : List Row) (i : Nat) (p : Patch) (now : Nat) (t2 : List Row),
      updateProducto t i p now = some t2 → TableOk t2) ∧
    (∀ (t : List Row) (i : Nat) (p : Patch) (now : Nat),
      ¬ TableOk (updatedRows t i p now) → updateProducto t i p now = none) := by
  refine ⟨?seed, ?ins, ?insrej, ?upd, ?updrej⟩
  case seed =>
    constructor
    · intro r hr
      simp only [seedRows, List.mem_cons, List.not_mem_nil, or_false] at hr
      rcases hr with h | h | h | h | h <;> subst h <;>
        exact ⟨by norm_num, by norm_num, by decide, by decide⟩
    · decide
  case ins =>
    intro t r t2 ht h
    unfold insertProducto at h
    by_cases hc : RowOk r ∧ ∀ x ∈ t, x.codigo ≠ r.codigo
    · rw [if_pos hc] at h
      obtain ⟨hok, huniq⟩ := hc
      obtain rfl : t ++ [r] = t2 := Option.some.inj h
      constructor
      · intro x hx
        rcases List.mem_append.mp hx with hx | hx
        · exact ht.1 x hx
        · rw [List.mem_singleton] at hx
          subst hx
          exact hok
      · rw [List.map_append, List.nodup_append]
        refine ⟨ht.2, List.nodup_singleton _, ?_⟩
        intro a ha hb
        simp only [List.map_cons, List.map_nil, List.mem_singleton] at hb
        subst hb
        obtain ⟨x, hx, hxc⟩ := List.mem_map.mp ha
        exact huniq x hx hxc
    · rw [if_neg hc] at h
      exact absurd h (by simp)
  case insrej =>
    intro t r h
    unfold insertProducto
    rw [if_neg h]
  case upd =>
    intro t i p now t2 h
    unfold updateProducto at h
    by_cases hc : TableOk (updatedRows t i p now)
    · rw [if_pos hc] at h
      obtain rfl : updatedRows t i p now = t2 := Option.some.inj h
      exact hc
    · rw [if_neg hc] at h
      exact absurd h (by simp)
  case updrej =>
    intro t i p now h
    unfold updateProducto
    rw [if_neg h]

/-- Witness for claim C2 amended: inserting a well-formed row into the
empty table is accepted and the resulting table satisfies the invariant. -/
theorem claim_C2_witness :
    TableOk [sampleRow] :=
  claim_C2_amended.2.1 [] sampleRow [sampleRow] (by decide) (by decide)

/-! ## Claim C5 -/

/-- The filter criterion in the words of the claim: codigo or nombre
contains the term, or descripcion / categoria is present (isSome) and
contains it; to be compared with the coincide predicate embedded from the
code, whose presence test is JS truthiness. -/
def coincideSpec (termino : String) (p : Producto) : Bool :=
  strIncludes (jsToLower p.codigo) termino ||
  strIncludes (jsToLower p.nombre) termino ||
  (p.descripcion.isSome && strIncludes (jsToLower (p.descripcion.getD "")) termino) ||
  (p.categoria.isSome && strIncludes (jsToLower (p.categoria.getD "")) termino)

/-- Every string contains the empty string. -/
lemma strIncludes_empty_right (s : String) : strIncludes s "" = true := by
  unfold strIncludes
  cases h : s.toList with
  | nil => rfl
  | cons b l => simp [occursIn, leadsWith]

/-- The empty string contains no non-empty string. -/
lemma strIncludes_empty_left (t : String) (h : t ≠ "") : strIncludes "" t = false := by
  have htl : t.toList ≠ [] := by
    intro hnil
    exact h (String.toList_inj.mp (by simpa using hnil))
  show occursIn t.toList [] = false
  cases ht : t.toList with
  | nil => exact absurd ht htl
  | cons a l => simp [occursIn]

/-- Truthiness versus presence in the optional-field conjuncts of the
filter: they agree, because they only differ on the empty string, which
contains the term exactly when the term is empty, and then the codigo
conjunct already holds on both sides. -/
lemma truthy_includes_eq (termino : String) (h : termino ≠ "") (d : Option String) :
    (optTruthy d && strIncludes (jsToLower (d.getD "")) termino)
      = (d.isSome && strIncludes (jsToLower (d.getD "")) termino) := by
  cases d with
  | none => rfl
  | some s =>
    by_cases hs : s = ""
    · subst hs
      have h0 : strIncludes (jsToLower ((some "" : Option String).getD "")) termino
          = false := by
        have h1 : jsToLower ((some "" : Option String).getD "") = "" := by decide
        rw [h1]
        exact strIncludes_empty_left termino h
      rw [h0]
      simp [optTruthy]
    · simp [optTruthy, hs]

/-- The embedded filter predicate equals the predicate of the claim on
every product and every term. -/
lemma coincide_eq_spec (termino : String) (p : Producto) :
    coincide termino p = coincideSpec termino p := by
  by_cases ht : termino = ""
  · subst ht
    unfold coincide coincideSpec
    rw [strIncludes_empty_right (jsToLower p.codigo)]
    simp
  · unfold coincide coincideSpec
    rw [truthy_includes_eq termino ht p.descripcion,
      truthy_includes_eq termino ht p.categoria]

/-- Claim C5: aplicarFiltros copies productos when the term is empty or
whitespace-only and otherwise keeps exactly the products matching the
lowercased trimmed term in codigo, nombre, or a present descripcion or
categoria; in both cases paginaActual is reset to 1 and totalPaginas is
recomputed from the filtered list. -/
theorem claim_C5 (s : ListState) :
    (jsTrim s.terminoBusqueda = "" →
      (aplicarFiltros s).productosFiltrados = s.productos) ∧
    (jsTrim s.terminoBusqueda ≠ "" →
      (aplicarFiltros s).productosFiltrados =
        s.productos.filter (coincideSpec (jsTrim (jsToLower s.terminoBusqueda)))) ∧
    (aplicarFiltros s).paginaActual = 1 ∧
    (aplicarFiltros s).totalPaginas =
      ceilDiv5 (aplicarFiltros s).productosFiltrados.length := by
  refine ⟨?_, ?_, ?_, ?_⟩
  · intro h
    show (if s.terminoBusqueda = "" ∨ jsTrim s.terminoBusqueda = "" then s.productos
      else s.productos.filter (coincide (jsTrim (jsToLower s.terminoBusqueda)))) = s.productos
    rw [if_pos (Or.inr h)]
  · intro h
    show (if s.terminoBusqueda = "" ∨ jsTrim s.terminoBusqueda = "" then s.productos
      else s.productos.filter (coincide (jsTrim (jsToLower s.terminoBusqueda)))) = _
    rw [if_neg ?_]
    · exact List.filter_congr fun p _ => coincide_eq_spec _ p
    · rintro (h1 | h1)
      · exact h (by rw [h1]; decide)
      · exact h h1
  · show (if (1:ℤ) > ceilDiv5 _ ∧ ceilDiv5 _ > 0 then ceilDiv5 _ else 1) = 1
    rw [if_neg]
    rintro ⟨h1, h2⟩
    omega
  · rfl

/-- A concrete component state with the search term OPT surrounded by
spaces. -/
def estadoBusqueda : ListState :=
  { productos := [productoValido, productoPrecioCero]
    terminoBusqueda := " OPT "
    productosFiltrados := []
    paginaActual := 1
    totalPaginas := 0 }

/-- Witness for claim C5 at a concrete state: the term OPT (with spaces)
filters by the lowercased trimmed term opt. -/
theorem claim_C5_witness :
    (aplicarFiltros estadoBusqueda).productosFiltrados =
      estadoBusqueda.productos.filter
        (coincideSpec (jsTrim (jsToLower estadoBusqueda.terminoBusqueda))) :=
  (claim_C5 estadoBusqueda).2.1 (by decide)

/-! ## Claim C4 -/

/-- Math.ceil(n / 5) agrees with the Nat computation (n + 4) / 5. -/
lemma ceil_div5 (n : ℕ) : ⌈(n : ℚ) / 5⌉ = ceilDiv5 n := by
  unfold ceilDiv5
  set k := (n + 4) / 5 with hk
  have h1 : n ≤ 5 * k := by omega
  have h2 : 5 * k < n + 5 := by omega
  have hcast : ((Int.ofNat k : ℤ) : ℚ) = (k : ℚ) := by
    rw [Int.ofNat_eq_natCast]
    push_cast
    ring
  rw [Int.ceil_eq_iff]
  constructor
  · rw [lt_div_iff₀ (by norm_num : (0:ℚ) < 5), hcast]
    have h2q : (5 : ℚ) * (k : ℚ) < (n : ℚ) + 5 := by exact_mod_cast h2
    linarith
  · rw [div_le_iff₀ (by norm_num : (0:ℚ) < 5), hcast]
    have h1q : (n : ℚ) ≤ (5 : ℚ) * (k : ℚ) := by exact_mod_cast h1
    linarith

/-- For a non-negative start, the JS slice of width 5 is drop-then-take. -/
lemma jsSlice_five (l : List Producto) (a : ℤ) (ha : 0 ≤ a) :
    jsSlice l a (a + 5) = (l.drop a.toNat).take 5 := by
  simp only [jsSlice]
  rw [if_neg (by omega), if_neg (by omega)]
  by_cases hle : a ≤ (l.length : ℤ)
  · rw [min_eq_left hle]
    by_cases hlt : a + 5 ≤ (l.length : ℤ)
    · rw [min_eq_left hlt]
      congr 1
      omega
    · rw [min_eq_right (by omega : (l.length : ℤ) ≤ a + 5)]
      have hlen : (l.drop a.toNat).length = l.length - a.toNat :=
        List.length_drop _ _
      rw [List.take_of_length_le (by rw [hlen]; omega),
        List.take_of_length_le (by rw [hlen]; omega)]
  · rw [min_eq_right (by omega : (l.length : ℤ) ≤ a),
      min_eq_right (by omega : (l.length : ℤ) ≤ a + 5)]
    rw [show (((l.length : ℤ)) - ((l.length : ℤ))).toNat = 0 by omega]
    rw [List.take_zero, List.drop_eq_nil_of_le (by omega : l.length ≤ a.toNat)]
    rfl

/-- Concatenating the 5-element chunks of a list recovers the list. -/
lemma join_chunks : ∀ (k : ℕ) (l : List Producto), l.length ≤ 5 * k →
    ((List.range k).map (fun i => (l.drop (5 * i)).take 5)).flatten = l := by
  intro k
  induction k with
  | zero =>
    intro l hl
    have h0 : l = [] := List.eq_nil_of_length_eq_zero (by omega)
    subst h0
    rfl
  | succ k ih =>
    intro l hl
    rw [List.range_succ_eq_map, List.map_cons, List.flatten_cons, List.map_map]
    have hmap : (List.range k).map ((fun i => (l.drop (5 * i)).take 5) ∘ Nat.succ)
        = (List.range k).map (fun i => ((l.drop 5).drop (5 * i)).take 5) := by
      apply List.map_congr_left
      intro i _
      simp only [Function.comp_apply, Nat.succ_eq_add_one]
      rw [List.drop_drop]
      congr 2
      ring
    rw [hmap, ih (l.drop 5) (by rw [List.length_drop]; omega)]
    exact List.take_append_drop 5 l

/-- Claim C4: with productosPorPagina = 5, calcularTotalPaginas computes
the ceiling of the filtered length over 5; every valid page is the slice
of productosFiltrados at zero-based indices (pa-1)*5 up to pa*5; and the
concatenation of pages 1 through totalPaginas is productosFiltrados. -/
theorem claim_C4 (s : ListState) :
    (calcularTotalPaginas s).totalPaginas
      = ⌈((s.productosFiltrados.length : ℚ)) / 5⌉ ∧
    (∀ pa : ℤ, 1 ≤ pa → pa ≤ (calcularTotalPaginas s).totalPaginas →
      obtenerProductosPaginados { calcularTotalPaginas s with paginaActual := pa }
        = ((calcularTotalPaginas s).productosFiltrados.drop ((pa - 1) * 5).toNat).take 5) ∧
    ((List.range (calcularTotalPaginas s).totalPaginas.toNat).map
        (fun (i : ℕ) => obtenerProductosPaginados
          { calcularTotalPaginas s with paginaActual := (i : ℤ) + 1 })).flatten
      = (calcularTotalPaginas s).productosFiltrados := by
  refine ⟨?_, ?_, ?_⟩
  · rw [ceil_div5]
    rfl
  · intro pa h1 _
    have h5 := jsSlice_five s.productosFiltrados ((pa - 1) * 5) (by omega)
    simpa [obtenerProductosPaginados, productosPorPagina] using h5
  · have hk : s.productosFiltrados.length
        ≤ 5 * (calcularTotalPaginas s).totalPaginas.toNat := by
      show s.productosFiltrados.length ≤ 5 * (ceilDiv5 s.productosFiltrados.length).toNat
      unfold ceilDiv5
      simp only [Int.ofNat_eq_natCast]
      omega
    have hmap : (List.range (calcularTotalPaginas s).totalPaginas.toNat).map
          (fun (i : ℕ) => obtenerProductosPaginados
            { calcularTotalPaginas s with paginaActual := (i : ℤ) + 1 })
        = (List.range (calcularTotalPaginas s).totalPaginas.toNat).map
          (fun i => (s.productosFiltrados.drop (5 * i)).take 5) := by
      apply List.map_congr_left
      intro i _
      have h5 := jsSlice_five s.productosFiltrados (((i : ℤ) + 1 - 1) * 5)
        (by omega)
      have ht : ((((i : ℤ) + 1 - 1) * 5)).toNat = 5 * i := by omega
      rw [ht] at h5
      simpa [obtenerProductosPaginados, productosPorPagina] using h5
    rw [hmap]
    exact join_chunks _ _ hk

/-- A concrete component state with six filtered products. -/
def estadoSeisProductos : ListState :=
  { productos := []
    terminoBusqueda := ""
    productosFiltrados :=
      [ { id := some 1, codigo := "C1", nombre := "N1", descripcion := none,
          cantidad := 1, precio := 1, categoria := none },
        { id := some 2, codigo := "C2", nombre := "N2", descripcion := none,
          cantidad := 2, precio := 2, categoria := none },
        { id := some 3, codigo := "C3", nombre := "N3", descripcion := none,
          cantidad := 3, precio := 3, categoria := none },
        { id := some 4, codigo := "C4", nombre := "N4", descripcion := none,
          cantidad := 4, precio := 4, categoria := none },
        { id := some 5, codigo := "C5", nombre := "N5", descripcion := none,
          cantidad := 5, precio := 5, categoria := none },
        { id := some 6, codigo := "C6", nombre := "N6", descripcion := none,
          cantidad := 6, precio := 6, categoria := none } ]
    paginaActual := 1
    totalPaginas := 0 }

/-- Witness for claim C4: with six filtered products, page 2 is the slice
from index 5 to 10, that is, the sixth product alone. -/
theorem claim_C4_witness :
    obtenerProductosPaginados
        { calcularTotalPaginas estadoSeisProductos with paginaActual := 2 }
      = ((calcularTotalPaginas estadoSeisProductos).productosFiltrados.drop
          (((2 : ℤ) - 1) * 5).toNat).take 5 :=
  (claim_C4 estadoSeisProductos).2.1 2 (by decide) (by decide)

/-! ## Claim C9 -/

/-- The pagination invariant of ProductoListComponent. -/
def InvL (s : ListState) : Prop :=
  1 ≤ s.paginaActual ∧ (1 ≤ s.totalPaginas → s.paginaActual ≤ s.totalPaginas)

/-- calcularTotalPaginas establishes the invariant whenever the current
page is at least 1. -/
lemma invL_calcular (s : ListState) (h : 1 ≤ s.paginaActual) :
    InvL (calcularTotalPaginas s) := by
  unfold calcularTotalPaginas InvL
  dsimp only
  by_cases hc : s.paginaActual > ceilDiv5 s.productosFiltrados.length ∧
      ceilDiv5 s.productosFiltrados.length > 0
  · rw [if_pos hc]
    exact ⟨by omega, fun _ => le_rfl⟩
  · rw [if_neg hc]
    refine ⟨h, fun h1 => ?_⟩
    rcases not_and_or.mp hc with h2 | h2 <;> omega

/-- Every operation of the claim preserves the pagination invariant. -/
lemma invL_step (op : OpL) (s : ListState) (h : InvL s) : InvL (stepL op s) := by
  cases op with
  | aplicarFiltros => exact invL_calcular _ le_rfl
  | buscar => exact invL_calcular _ le_rfl
  | limpiarBusqueda => exact invL_calcular _ le_rfl
  | cambiarPagina n =>
    show InvL (cambiarPagina n s)
    unfold cambiarPagina
    by_cases hc : n ≥ 1 ∧ n ≤ s.totalPaginas
    · rw [if_pos hc]
      exact ⟨hc.1, fun _ => hc.2⟩
    · rw [if_neg hc]
      exact h
  | calcularTotalPaginas => exact invL_calcular s h.1

/-- Sequences of operations preserve the pagination invariant. -/
lemma invL_runOps : ∀ (ops : List OpL) (s : ListState), InvL s →
    InvL (runOps ops s) := by
  intro ops
  induction ops with
  | nil => exact fun s h => h
  | cons op rest ih => exact fun s h => ih _ (invL_step op s h)

/-- Claim C9: from the initial state, any sequence of aplicarFiltros,
buscar, limpiarBusqueda, cambiarPagina and calcularTotalPaginas keeps
paginaActual at least 1 and, whenever totalPaginas is at least 1, at most
totalPaginas; and cambiarPagina leaves paginaActual unchanged for every
argument outside 1..totalPaginas. -/
theorem claim_C9 :
    (∀ ops : List OpL,
      1 ≤ (runOps ops initListState).paginaActual ∧
      (1 ≤ (runOps ops initListState).totalPaginas →
        (runOps ops initListState).paginaActual
          ≤ (runOps ops initListState).totalPaginas)) ∧
    (∀ (s : ListState) (n : ℤ), ¬ (1 ≤ n ∧ n ≤ s.totalPaginas) →
      (stepL (OpL.cambiarPagina n) s).paginaActual = s.paginaActual) := by
  constructor
  · intro ops
    exact invL_runOps ops initListState ⟨le_rfl, fun h1 => absurd h1 (by decide)⟩
  · intro s n hn
    show (cambiarPagina n s).paginaActual = s.paginaActual
    unfold cambiarPagina
    rw [if_neg (fun hc => hn ⟨hc.1, hc.2⟩)]

/-- Witness for claim C9: a concrete operation sequence keeps the page at
least 1, and cambiarPagina 0 does not move the page. -/
theorem claim_C9_witness :
    1 ≤ (runOps [OpL.cambiarPagina 3, OpL.aplicarFiltros] initListState).paginaActual ∧
    (stepL (OpL.cambiarPagina 0) estadoSeisProductos).paginaActual
      = estadoSeisProductos.paginaActual :=
  ⟨(claim_C9.1 [OpL.cambiarPagina 3, OpL.aplicarFiltros]).1,
   claim_C9.2 estadoSeisProductos 0 (by decide)⟩

/-! ## Claim C8 -/

/-- Claim C8 fails on the code: with a validated file of 100 rows the
estimated time is 20000 ms, so the simulation runs 100 cycles of 200 ms
with incrementoPorCiclo = 80 / 100 = 0.8; but each tick floors the
accumulated progreso back to an integer, so progreso stays 0 on every
tick and never reaches the hold value 85 (the claim expects 85 within
101 ticks). -/
theorem claim_C8_progreso_stuck :
    numCiclos 100 = 100 ∧ ∀ k : ℕ, simProgreso 100 k = 0 := by
  refine ⟨rfl, ?_⟩
  intro k
  induction k with
  | zero => rfl
  | succ k ih =>
    show simTick 100 (simProgreso 100 k) = 0
    rw [ih]
    unfold simTick
    rw [if_pos (by norm_num : (0:ℚ) < 80)]
    have hinc : incrementoPorCiclo 100 = 4 / 5 := by
      unfold incrementoPorCiclo numCiclos tiempoEstimado
      norm_num
    rw [hinc, zero_add]
    have hfloor : ⌊(4 / 5 : ℚ)⌋ = 0 := by
      rw [Int.floor_eq_zero_iff]
      constructor <;> norm_num
    rw [hfloor]
    rfl

end Inventario
